import Mathlib

/-!
Verification of the agentic-brain core against its source.

Shallow embedding of the Python modules `src/retry.py`, `src/mcp_client.py`
and `src/agent.py`.  Network and model I/O is represented by explicit
outcome values (an HTTP response with a status code and parsed body, or a
raised exception), so every function of the source becomes a total Lean
function over those outcomes; a Python function that can raise becomes a
function into `Except PyExn`.
-/

/-- Python exceptions relevant to the embedded modules.  `httpStatusError`
is `httpx.HTTPStatusError` (raised by `response.raise_for_status()`); note
that in httpx it is a sibling of `httpx.RequestError`, not a subclass. -/
inductive PyExn where
  | valueError (msg : String)
  | connectionError (msg : String)
  | timeoutError (msg : String)
  | httpxRequestError (msg : String)
  | httpxTimeoutException (msg : String)
  | httpStatusError (msg : String)
  | apiConnectionError (msg : String)
  | apiTimeoutError (msg : String)
  | rateLimitError (msg : String)
  | other (msg : String)
deriving DecidableEq, Repr

/-- Python `str(e)` on an exception: its message. -/
def pyStr : PyExn → String
  | .valueError m => m
  | .connectionError m => m
  | .timeoutError m => m
  | .httpxRequestError m => m
  | .httpxTimeoutException m => m
  | .httpStatusError m => m
  | .apiConnectionError m => m
  | .apiTimeoutError m => m
  | .rateLimitError m => m
  | .other m => m

/-- The retry predicate of `retry_on_network_error` (src/retry.py line 43):
`retry_if_exception_type((ConnectionError, TimeoutError, httpx.RequestError,
httpx.TimeoutException))`.  `httpx.HTTPStatusError` is not an instance of
any of these classes. -/
def retryableNetwork : PyExn → Bool
  | .connectionError _ => true
  | .timeoutError _ => true
  | .httpxRequestError _ => true
  | .httpxTimeoutException _ => true
  | _ => false

/-- The retry predicate of `retry_on_anthropic_error` (src/retry.py line 97):
`retry_if_exception_type((ConnectionError, TimeoutError, APIConnectionError,
APITimeoutError, RateLimitError))`. -/
def retryableAnthropic : PyExn → Bool
  | .connectionError _ => true
  | .timeoutError _ => true
  | .apiConnectionError _ => true
  | .apiTimeoutError _ => true
  | .rateLimitError _ => true
  | _ => false

/-- Tenacity's retry driver with `stop_after_attempt` and `reraise=True`:
attempt number `k` runs `f k`; a success stops with that value, a
non-retryable error or an exhausted budget re-raises the last error
unchanged.  `remaining` counts the attempts still allowed after this one.
Returns the outcome together with the number of attempts performed. -/
def retryRunAux (retryable : PyExn → Bool) (f : Nat → Except PyExn α) :
    Nat → Nat → Except PyExn α × Nat
  | remaining, k =>
    match f k with
    | .ok a => (.ok a, k)
    | .error e =>
      if retryable e then
        match remaining with
        | 0 => (.error e, k)
        | r + 1 => retryRunAux retryable f r (k + 1)
      else (.error e, k)

/-- Run `f` under `retry(stop=stop_after_attempt maxAttempts, reraise=True)`:
at most `maxAttempts` attempts, starting at attempt number 1. -/
def retryRun (retryable : PyExn → Bool) (maxAttempts : Nat)
    (f : Nat → Except PyExn α) : Except PyExn α × Nat :=
  retryRunAux retryable f (maxAttempts - 1) 1

/-- Tenacity `wait_exponential(multiplier, min, max)` with the default
`exp_base = 2`: the sleep after the failed attempt numbered
`attemptNumber` is `multiplier * 2 ^ (attemptNumber - 1)` clamped into
`[min, max]` (tenacity computes `max(max(0, min), min(result, max))`). -/
def wait_exponential (multiplier minWait maxWait attemptNumber : Nat) : Nat :=
  max (max 0 minWait) (min (multiplier * 2 ^ (attemptNumber - 1)) maxWait)

/-- The wait curve of `retry_on_network_error` (src/retry.py line 42):
`wait_exponential(multiplier=1, min=min_wait_seconds, max=max_wait_seconds)`.
`k` is the number of the attempt that just failed. -/
def retry_on_network_error_wait (minWait maxWait k : Nat) : Nat :=
  wait_exponential 1 minWait maxWait k

/-- The wait curve of `retry_on_anthropic_error` (src/retry.py line 96):
`wait_exponential(multiplier=2, min=min_wait_seconds, max=max_wait_seconds)`. -/
def retry_on_anthropic_error_wait (minWait maxWait k : Nat) : Nat :=
  wait_exponential 2 minWait maxWait k

/-- A tool dict as served by a tool server: src/mcp_client.py stores the
entries of the discovery response's `tools` list unchanged. -/
structure MCPTool where
  name : String
  description : String
deriving DecidableEq, Repr

/-- A tool dict as returned by `get_available_tools`: a copy of the stored
dict with the owning server's name added under the `server` key. -/
structure TaggedTool where
  name : String
  description : String
  server : String
deriving DecidableEq, Repr

/-- Python `d.get(k)` on a string-keyed dict, dicts modelled as ordered
association lists without duplicate keys. -/
def pyDictGet (k : String) : List (String × α) → Option α
  | [] => none
  | (k2, v) :: rest => if k = k2 then some v else pyDictGet k rest

/-- Python `d[k] = v`: replace in place if the key exists, append otherwise
(insertion order is preserved, as for a Python dict). -/
def pyDictSet (k : String) (v : α) : List (String × α) → List (String × α)
  | [] => [(k, v)]
  | (k2, v2) :: rest =>
    if k2 = k then (k, v) :: rest else (k2, v2) :: pyDictSet k v rest

/-- The mutable state of `MCPManager` (src/mcp_client.py lines 17-21):
the configured servers, the per-server tool lists, and the merged cache. -/
structure MCPManager where
  servers : List (String × String)
  tools : List (String × List MCPTool)
  tools_cache : Option (List TaggedTool)
deriving DecidableEq, Repr

/-- Outcome of the discovery GET in `_discover_tools`: either a response
(status code, and the parsed `tools` list, `none` when `response.json()`
raises on a malformed payload), or a raised transport exception. -/
inductive GetOutcome where
  | response (statusCode : Nat) (toolsJson : Option (List MCPTool))
  | exn (e : PyExn)
deriving Repr

/-- The `try` body of `_discover_tools` (src/mcp_client.py lines 50-58):
GET the tools endpoint; on status 200 parse the body and store its `tools`
list (default `[]`), on any other status do nothing; a transport error or
a JSON decode error raises. -/
def _discover_tools_try (m : MCPManager) (server_name : String)
    (o : GetOutcome) : Except PyExn MCPManager :=
  match o with
  | .exn e => .error e
  | .response statusCode toolsJson =>
    if statusCode = 200 then
      match toolsJson with
      | some tools_data =>
        .ok { m with tools := pyDictSet server_name tools_data m.tools }
      | none => .error (.valueError "JSONDecodeError")
    else .ok m

/-- `_discover_tools` (src/mcp_client.py lines 47-62): the `try` body with
its `except Exception` handler, which logs and sets the server's tool list
to the empty list.  The `Except` codomain exposes the (never used) raise
channel of the Python coroutine. -/
def _discover_tools (m : MCPManager) (server_name : String)
    (o : GetOutcome) : Except PyExn MCPManager :=
  match _discover_tools_try m server_name o with
  | .ok m2 => .ok m2
  | .error _ => .ok { m with tools := pyDictSet server_name [] m.tools }

/-- The manager state after `_discover_tools` returns. -/
def discover_tools_run (m : MCPManager) (server_name : String)
    (o : GetOutcome) : MCPManager :=
  match _discover_tools m server_name o with
  | .ok m2 => m2
  | .error _ => m

/-- One iteration of the `connect_all` loop (src/mcp_client.py lines
29-36): `try` the discovery and count the server as connected; on an
exception log a warning and continue with the next server. -/
def connect_step (outcomes : String → GetOutcome)
    (acc : MCPManager × Nat) (nv : String × String) : MCPManager × Nat :=
  match _discover_tools acc.1 nv.1 (outcomes nv.1) with
  | .ok m2 => (m2, acc.2 + 1)
  | .error _ => (acc.1, acc.2)

/-- `connect_all` (src/mcp_client.py lines 23-38): invalidate the merged
cache, then run discovery for every configured server in order, counting
the connected ones (the count feeds the `mcp_servers_connected` gauge). -/
def connect_all (m : MCPManager) (outcomes : String → GetOutcome) :
    MCPManager × Nat :=
  List.foldl (connect_step outcomes)
    ({ m with tools_cache := none }, 0) m.servers

/-- The merge in `get_available_tools` (src/mcp_client.py lines 104-109):
flatten the per-server lists in order, copying each tool dict and adding
the owning server's name under `server`. -/
def flatten_tools : List (String × List MCPTool) → List TaggedTool
  | [] => []
  | (server_name, tools) :: rest =>
    tools.map (fun t => ⟨t.name, t.description, server_name⟩) ++
      flatten_tools rest

/-- `get_available_tools` (src/mcp_client.py lines 99-112): return the
cached merged list if present, otherwise build it, store it and return
it.  Returns the result together with the updated manager state. -/
def get_available_tools (m : MCPManager) : List TaggedTool × MCPManager :=
  match m.tools_cache with
  | some cached => (cached, m)
  | none =>
    let all_tools := flatten_tools m.tools
    (all_tools, { m with tools_cache := some all_tools })

/-- Outcome of the POST in `call_tool`: a response (status code, and the
parsed JSON body, `none` when `response.json()` raises), or a raised
transport exception. -/
inductive PostOutcome where
  | response (statusCode : Nat) (resultJson : Option String)
  | exn (e : PyExn)
deriving Repr

/-- `call_tool` (src/mcp_client.py lines 64-97), one attempt: raise
`ValueError` for a server name absent from the registry; otherwise POST
the payload, let `raise_for_status` raise `httpx.HTTPStatusError` on a
non-2xx status, and return the parsed JSON body.  The metrics updates of
the `finally` block have no bearing on the returned value and are not
modelled. -/
def call_tool (m : MCPManager) (server_name tool_name : String)
    (o : PostOutcome) : Except PyExn String :=
  match pyDictGet server_name m.servers with
  | none => .error (.valueError ("Unknown MCP server: " ++ server_name))
  | some _ =>
    match o with
    | .exn e => .error e
    | .response statusCode resultJson =>
      if 200 ≤ statusCode ∧ statusCode ≤ 299 then
        match resultJson with
        | some result => .ok result
        | none => .error (.valueError "JSONDecodeError")
      else
        .error (.httpStatusError ("HTTP status " ++ toString statusCode))

/-- A tool-call request as found on an `AIMessage` (langchain format:
name, arguments, call id).  The arguments dict is kept opaque. -/
structure ToolCall where
  name : String
  args : String
  id : String
deriving DecidableEq, Repr

/-- The langchain message kinds used by src/agent.py: `SystemMessage`,
`HumanMessage`, `AIMessage` (with its tool-call requests) and
`ToolMessage` (with its `tool_call_id`). -/
inductive BaseMessage where
  | system (content : String)
  | human (content : String)
  | ai (content : String) (tool_calls : List ToolCall)
  | tool (content : String) (tool_call_id : String)
deriving DecidableEq, Repr

/-- The `content` attribute every message kind carries. -/
def msgContent : BaseMessage → String
  | .system c => c
  | .human c => c
  | .ai c _ => c
  | .tool c _ => c

/-- Python `messages[-1]` guarded by an emptiness check: the last element
of a list, if any. -/
def lastMsg : List BaseMessage → Option BaseMessage
  | [] => none
  | m :: rest =>
    match lastMsg rest with
    | none => some m
    | some x => some x

/-- One entry of the external history format: `msg.get("role")` (absent
key gives `none`) and `msg.get("content", "")`. -/
structure HistEntry where
  role : Option String
  content : String
deriving DecidableEq, Repr

/-- The per-entry case split of `_convert_history_to_messages`
(src/agent.py lines 188-199): `user`, `assistant` and `system` map to the
corresponding message kind; any other role is skipped with a warning. -/
def convert_one (e : HistEntry) : Option BaseMessage :=
  match e.role with
  | some r =>
    if r = "user" then some (.human e.content)
    else if r = "assistant" then some (.ai e.content [])
    else if r = "system" then some (.system e.content)
    else none
  | none => none

/-- `_convert_history_to_messages` (src/agent.py lines 185-201): the
append loop over the history entries. -/
def _convert_history_to_messages : List HistEntry → List BaseMessage
  | [] => []
  | e :: rest =>
    let tail := _convert_history_to_messages rest
    match e.role with
    | some r =>
      if r = "user" then .human e.content :: tail
      else if r = "assistant" then .ai e.content [] :: tail
      else if r = "system" then .system e.content :: tail
      else tail
    | none => tail

/-- The base instruction of `_build_system_prompt` (src/agent.py lines
163-164). -/
def base_prompt : String :=
  "You are a helpful AI assistant with access to various tools and systems.\nYou can help with tasks, answer questions, and interact with connected services."

/-- The `interface_prompts` dict (src/agent.py lines 166-170). -/
def interface_prompts : List (String × String) :=
  [("voice", "The user is interacting via voice. Keep responses concise and conversational."),
   ("telegram", "The user is messaging via Telegram. Use clear, formatted text."),
   ("api", "This is a programmatic API interaction.")]

/-- The `language_prompts` dict (src/agent.py lines 172-175). -/
def language_prompts : List (String × String) :=
  [("pl", "Respond in Polish."),
   ("en", "Respond in English.")]

/-- `_build_system_prompt` (src/agent.py lines 161-183): the base prompt,
then the interface clause if the interface is a known key, then the
language clause if the language is a known key, joined by blank lines. -/
def _build_system_prompt (interface language : String) : String :=
  String.intercalate "\n\n"
    ([base_prompt] ++
      (match pyDictGet interface interface_prompts with
       | some p => [p]
       | none => []) ++
      (match pyDictGet language language_prompts with
       | some p => [p]
       | none => []))

/-- One iteration of the `_execute_tools` loop (src/agent.py lines
127-146): find the first registry tool with the requested name and take
its owning server; with no owner, synthesize the `not found` error
message; otherwise invoke the tool (`te` gives the outcome of the
retry-wrapped `call_tool`) and catch any exception into an error
message.  Every branch yields exactly one `ToolMessage` tagged with the
request's call id. -/
def execOneTool (tools : List TaggedTool)
    (te : String → String → String → Except PyExn String)
    (tc : ToolCall) : BaseMessage :=
  match List.find? (fun t => t.name == tc.name) tools with
  | none => .tool ("Error: Tool " ++ tc.name ++ " not found") tc.id
  | some t =>
    match te t.server tc.name tc.args with
    | .ok result => .tool result tc.id
    | .error e => .tool ("Error: " ++ pyStr e) tc.id

/-- The batch loop of `_execute_tools` (src/agent.py lines 126-148): one
result message per requested call, in order. -/
def _execute_tools (tools : List TaggedTool)
    (te : String → String → String → Except PyExn String)
    (tool_calls : List ToolCall) : List BaseMessage :=
  tool_calls.map (execOneTool tools te)

/-- The entry guard of `_execute_tools` (src/agent.py lines 119-123): if
the last message is not an `AIMessage` or has no tool calls, produce no
results; otherwise run the batch loop over its tool calls. -/
def _execute_tools_node (tools : List TaggedTool)
    (te : String → String → String → Except PyExn String)
    (messages : List BaseMessage) : List BaseMessage :=
  match lastMsg messages with
  | some (.ai _ tool_calls) => _execute_tools tools te tool_calls
  | _ => []

/-- `_should_continue` (src/agent.py lines 150-159): continue to the tools
node exactly when the last message is an `AIMessage` with tool calls. -/
def _should_continue (messages : List BaseMessage) : String :=
  match lastMsg messages with
  | some (.ai _ tool_calls) => if tool_calls.isEmpty then "end" else "continue"
  | _ => "end"

/-- Outcome of one `_call_model` invocation: the model's response
(content and tool-call requests) or a raised exception. -/
inductive ModelOutcome where
  | resp (content : String) (tool_calls : List ToolCall)
  | raise (e : PyExn)
deriving Repr

/-- Result of running the compiled graph on an initial message sequence:
terminated normally with the final sequence, terminated by an exception,
or still looping when the supplied script of model outcomes ran out.
`calls` counts the model invocations made. -/
inductive RunOutcome where
  | done (final : List BaseMessage) (calls : Nat)
  | raised (e : PyExn) (calls : Nat)
  | pending (calls : Nat)
deriving Repr

/-- The compiled graph of `_build_graph` (src/agent.py lines 53-77):
enter at the agent node; each agent step appends the model's response;
the conditional edge keyed by `_should_continue` either ends or runs the
tools node, whose results are appended before re-entering the agent
node.  The `script` lists the outcome of each successive model call. -/
def runLoop (tools : List TaggedTool)
    (te : String → String → String → Except PyExn String) :
    List ModelOutcome → List BaseMessage → Nat → RunOutcome
  | [], _, calls => .pending calls
  | .raise e :: _, _, calls => .raised e (calls + 1)
  | .resp content tool_calls :: rest, messages, calls =>
    let messages2 := messages ++ [.ai content tool_calls]
    if _should_continue messages2 = "continue" then
      runLoop tools te rest
        (messages2 ++ _execute_tools_node tools te messages2) (calls + 1)
    else
      .done messages2 (calls + 1)

/-- The message sequence built by `chat` before the first model call
(src/agent.py lines 214-220): the system prompt, the mapped history, and
the new user message. -/
def initial_messages (message : String) (history : List HistEntry)
    (interface language : String) : List BaseMessage :=
  .system (_build_system_prompt interface language) ::
    (_convert_history_to_messages history ++ [.human message])

/-- The fixed string returned when the loop ends with empty or absent
final text content (src/agent.py lines 239 and 241). -/
def apology_empty : String := "I apologize, I couldn't generate a response."

/-- The fixed apology returned by the top-level exception handler of
`chat` (src/agent.py line 245). -/
def apology_error : String :=
  "I apologize, I couldn't generate a response. Please try again."

/-- The response extraction of `chat` (src/agent.py lines 235-241): the
last message's content when the final sequence is non-empty and that
content is non-empty, the fixed fallback string otherwise. -/
def extract_final (final_messages : List BaseMessage) : String :=
  match lastMsg final_messages with
  | some last_message =>
    if msgContent last_message = "" then apology_empty
    else msgContent last_message
  | none => apology_empty

/-- `chat` (src/agent.py lines 203-245): build the initial messages, run
the graph, extract the final text; any exception raised inside becomes
the fixed apology string.  `none` stands for a run that is still looping
when the model-outcome script ends (the reference behavior does not bound
iterations). -/
def chat (tools : List TaggedTool)
    (te : String → String → String → Except PyExn String)
    (script : List ModelOutcome) (message : String)
    (history : List HistEntry)
    (user_id session_id interface language : String) : Option String :=
  match runLoop tools te script
      (initial_messages message history interface language) 0 with
  | .raised _ _ => some apology_error
  | .done final _ => some (extract_final final)
  | .pending _ => none

/-! Helper lemmas shared by the claim theorems. -/

theorem lastMsg_concat (l : List BaseMessage) (a : BaseMessage) :
    lastMsg (l ++ [a]) = some a := by
  induction l with
  | nil => rfl
  | cons x xs ih => simp [lastMsg, ih]

theorem should_continue_concat (l : List BaseMessage) (c : String)
    (tcs : List ToolCall) :
    _should_continue (l ++ [.ai c tcs]) =
      if tcs.isEmpty then "end" else "continue" := by
  simp [_should_continue, lastMsg_concat]

theorem execute_tools_node_concat (tools : List TaggedTool)
    (te : String → String → String → Except PyExn String)
    (l : List BaseMessage) (c : String) (tcs : List ToolCall) :
    _execute_tools_node tools te (l ++ [.ai c tcs]) =
      _execute_tools tools te tcs := by
  simp [_execute_tools_node, lastMsg_concat]

theorem discover_eq_run (m : MCPManager) (n : String) (o : GetOutcome) :
    _discover_tools m n o = .ok (discover_tools_run m n o) := by
  unfold discover_tools_run _discover_tools
  cases _discover_tools_try m n o <;> rfl

theorem discover_run_preserves_cache (m : MCPManager) (n : String)
    (o : GetOutcome) :
    (discover_tools_run m n o).tools_cache = m.tools_cache := by
  unfold discover_tools_run _discover_tools _discover_tools_try
  cases o with
  | exn e => rfl
  | response code body =>
    by_cases h : code = 200 <;> cases body <;> simp [h]

theorem connect_step_eq (oc : String → GetOutcome) (acc : MCPManager × Nat)
    (nv : String × String) :
    connect_step oc acc nv =
      (discover_tools_run acc.1 nv.1 (oc nv.1), acc.2 + 1) := by
  unfold connect_step
  rw [discover_eq_run]

theorem connect_fold_cache (oc : String → GetOutcome)
    (l : List (String × String)) (acc : MCPManager × Nat) :
    ((List.foldl (connect_step oc) acc l).1).tools_cache =
      acc.1.tools_cache := by
  induction l generalizing acc with
  | nil => rfl
  | cons nv rest ih =>
    rw [List.foldl_cons, ih, connect_step_eq, discover_run_preserves_cache]

theorem connect_all_cache (m : MCPManager) (oc : String → GetOutcome) :
    ((connect_all m oc).1).tools_cache = none := by
  unfold connect_all
  rw [connect_fold_cache]

theorem get_available_tools_caches (m : MCPManager) :
    ((get_available_tools m).2).tools_cache =
      some (get_available_tools m).1 := by
  cases h : m.tools_cache <;> simp [get_available_tools, h]

theorem convert_eq_filterMap (history : List HistEntry) :
    _convert_history_to_messages history = history.filterMap convert_one := by
  induction history with
  | nil => rfl
  | cons e rest ih =>
    simp only [_convert_history_to_messages, List.filterMap_cons, ih]
    cases hr : e.role with
    | none => simp [convert_one, hr]
    | some r =>
      by_cases h1 : r = "user"
      · simp [convert_one, hr, h1]
      · by_cases h2 : r = "assistant"
        · simp [convert_one, hr, h1, h2]
        · by_cases h3 : r = "system"
          · simp [convert_one, hr, h1, h2, h3]
          · simp [convert_one, hr, h1, h2, h3]

theorem length_filterMap_add_none {α β : Type} (f : α → Option β)
    (l : List α) :
    (l.filterMap f).length +
      (l.filter (fun e => (f e).isNone)).length = l.length := by
  induction l with
  | nil => rfl
  | cons a l ih =>
    cases hfa : f a <;> simp [List.filterMap_cons, hfa, List.filter_cons] <;>
      omega

theorem inter_one (s a : String) : String.intercalate s [a] = a := rfl

theorem inter_two (s a b : String) :
    String.intercalate s [a, b] = a ++ s ++ b := rfl

theorem inter_three (s a b c : String) :
    String.intercalate s [a, b, c] = a ++ s ++ b ++ s ++ c := by
  simp [String.intercalate, String.intercalate.go, String.append_assoc]

theorem extract_final_ne_empty (msgs : List BaseMessage) :
    extract_final msgs ≠ "" := by
  unfold extract_final
  cases h : lastMsg msgs with
  | none => decide
  | some lm =>
    by_cases hc : msgContent lm = ""
    · simp [hc]; decide
    · simp [hc]

theorem get_hits_cache (m : MCPManager) (r : List TaggedTool)
    (h : m.tools_cache = some r) : (get_available_tools m).1 = r := by
  simp [get_available_tools, h]

theorem get_rebuilds (m : MCPManager) (h : m.tools_cache = none) :
    (get_available_tools m).1 = flatten_tools m.tools := by
  simp [get_available_tools, h]

/-! The claim theorems. -/

/-- C4: `get_available_tools` called twice without an intervening
`connect_all` returns identical results even if the per-server tool lists
are mutated in between; `connect_all` always leaves the merged cache
invalidated, so the next `get_available_tools` rebuilds the merge from
the freshly discovered per-server lists. -/
theorem tools_cache_invariants :
    ∀ (m : MCPManager) (newTools : List (String × List MCPTool))
      (oc : String → GetOutcome),
      (get_available_tools
          { (get_available_tools m).2 with tools := newTools }).1 =
        (get_available_tools m).1
      ∧ ((connect_all m oc).1).tools_cache = none
      ∧ (get_available_tools (connect_all m oc).1).1 =
          flatten_tools ((connect_all m oc).1).tools := by
  intro m newTools oc
  refine ⟨?_, connect_all_cache m oc, ?_⟩
  · exact get_hits_cache _ _ (get_available_tools_caches m)
  · exact get_rebuilds _ (connect_all_cache m oc)

/-- C10: `_discover_tools` never raises, for any state, server and HTTP
outcome: it always returns `.ok`; hence the per-server `except` handler in
`connect_all` (modelled by `connect_step`'s error branch) is never taken,
and the retry wrapper around `_discover_tools` observes a success on
attempt 1 and never retries. -/
theorem discover_tools_never_raises :
    ∀ (m : MCPManager) (n url : String) (o : GetOutcome)
      (oc : String → GetOutcome) (k : Nat),
      _discover_tools m n o = .ok (discover_tools_run m n o)
      ∧ connect_step oc (m, k) (n, url) =
          (discover_tools_run m n (oc n), k + 1)
      ∧ retryRun retryableNetwork 3 (fun _ => _discover_tools m n o) =
          (.ok (discover_tools_run m n o), 1) := by
  intro m n url o oc k
  refine ⟨discover_eq_run m n o, connect_step_eq oc (m, k) (n, url), ?_⟩
  simp [retryRun, retryRunAux, discover_eq_run]

/-- C6 (amended): `call_tool` on an unknown server name raises
`ValueError` on the first attempt with zero retries; a retryable
transport failure from a known server raises and is retried until the
attempt budget is exhausted; a non-2xx response from a known server
raises `httpx.HTTPStatusError`, which is not in the retried exception
set, so it propagates after a single attempt. -/
theorem call_tool_retry_classification :
    ∀ (m : MCPManager) (sn tn : String) (o : PostOutcome),
      (pyDictGet sn m.servers = none →
        call_tool m sn tn o =
          .error (.valueError ("Unknown MCP server: " ++ sn))
        ∧ retryRun retryableNetwork 3 (fun _ => call_tool m sn tn o) =
            (.error (.valueError ("Unknown MCP server: " ++ sn)), 1))
      ∧ (∀ e, pyDictGet sn m.servers ≠ none → retryableNetwork e = true →
          call_tool m sn tn (.exn e) = .error e
          ∧ retryRun retryableNetwork 3
              (fun _ => call_tool m sn tn (.exn e)) = (.error e, 3))
      ∧ (∀ code body, pyDictGet sn m.servers ≠ none →
          ¬(200 ≤ code ∧ code ≤ 299) →
          call_tool m sn tn (.response code body) =
            .error (.httpStatusError ("HTTP status " ++ toString code))
          ∧ retryableNetwork
              (.httpStatusError ("HTTP status " ++ toString code)) = false
          ∧ retryRun retryableNetwork 3
              (fun _ => call_tool m sn tn (.response code body)) =
              (.error
                (.httpStatusError ("HTTP status " ++ toString code)), 1)) := by
  intro m sn tn o
  refine ⟨?_, ?_, ?_⟩
  · intro h
    have hc : call_tool m sn tn o =
        .error (.valueError ("Unknown MCP server: " ++ sn)) := by
      unfold call_tool
      rw [h]
    exact ⟨hc, by simp [retryRun, retryRunAux, hc, retryableNetwork]⟩
  · intro e hs hr
    cases hsv : pyDictGet sn m.servers with
    | none => exact absurd hsv hs
    | some url =>
      have hc : call_tool m sn tn (.exn e) = .error e := by
        unfold call_tool
        rw [hsv]
      exact ⟨hc, by simp [retryRun, retryRunAux, hc, hr]⟩
  · intro code body hs hcode
    cases hsv : pyDictGet sn m.servers with
    | none => exact absurd hsv hs
    | some url =>
      have hc : call_tool m sn tn (.response code body) =
          .error (.httpStatusError ("HTTP status " ++ toString code)) := by
        unfold call_tool
        rw [hsv]
        simp [if_neg hcode]
      exact ⟨hc, rfl, by simp [retryRun, retryRunAux, hc, retryableNetwork]⟩

/-- The one-server registry used by the C6 counterexample and witness. -/
def cex_manager : MCPManager :=
  ⟨[("fs", "http://localhost:8001/sse")], [], none⟩

/-- C6 counterexample: a non-2xx response from a known server raises
`httpx.HTTPStatusError`, which the network retry predicate classifies as
NOT retryable: the wrapped call performs exactly one attempt, against the
claim that non-2xx responses are retried. -/
theorem call_tool_status_error_cex :
    retryableNetwork (.httpStatusError "HTTP status 500") = false
    ∧ retryRun retryableNetwork 3
        (fun _ => call_tool cex_manager "fs" "x" (.response 500 (some "r"))) =
        (.error (.httpStatusError "HTTP status 500"), 1) := ⟨rfl, rfl⟩

/-- C6 witness: the three branches of the amended claim at concrete
inputs: an unknown server fails in one attempt with `ValueError`; a
timeout from a known server is retried to exhaustion (3 attempts); a 500
response from a known server fails in one attempt. -/
theorem call_tool_retry_classification_witness :
    retryRun retryableNetwork 3
      (fun _ => call_tool cex_manager "unknown" "x" (.response 200 (some "r"))) =
      (.error (.valueError "Unknown MCP server: unknown"), 1)
    ∧ retryRun retryableNetwork 3
        (fun _ => call_tool cex_manager "fs" "x"
          (.exn (.httpxTimeoutException "timed out"))) =
        (.error (.httpxTimeoutException "timed out"), 3)
    ∧ retryRun retryableNetwork 3
        (fun _ => call_tool cex_manager "fs" "x" (.response 500 (some "r"))) =
        (.error (.httpStatusError "HTTP status 500"), 1) := by
  have t := call_tool_retry_classification cex_manager "unknown" "x"
    (.response 200 (some "r"))
  have t2 := call_tool_retry_classification cex_manager "fs" "x"
    (.response 500 (some "r"))
  refine ⟨(t.1 (by decide)).2, ?_, (t2.2.2 500 (some "r") (by decide) (by decide)).2.2⟩
  exact (t2.2.1 (.httpxTimeoutException "timed out") (by decide) rfl).2

/-- C9 counterexample: for the network wrapper (multiplier 1, defaults
min 1, max 10) the wait after failed attempt 2 is 2 seconds (tenacity's
exponential base is 2, the multiplier only scales it), not the
`min(max_wait, min_wait * multiplier^(k-1)) = 1` the claim's formula
gives. -/
theorem backoff_wait_formula_cex :
    ¬(retry_on_network_error_wait 1 10 2 = min 10 (1 * 1 ^ (2 - 1))) := by
  decide

/-- C9 (amended): for every attempt number `k` with `1 ≤ k`, the wait
before retry attempt `k+1` equals
`max(min_wait, min(max_wait, multiplier * 2^(k-1)))`, the multiplier
being 1 for the network-generic wrapper and 2 for the model-API
wrapper. -/
theorem backoff_wait_formula :
    ∀ (minWait maxWait k : Nat), 1 ≤ k →
      retry_on_network_error_wait minWait maxWait k =
        max minWait (min maxWait (2 ^ (k - 1)))
      ∧ retry_on_anthropic_error_wait minWait maxWait k =
        max minWait (min maxWait (2 * 2 ^ (k - 1))) := by
  intro minWait maxWait k hk
  unfold retry_on_network_error_wait retry_on_anthropic_error_wait
    wait_exponential
  generalize 2 ^ (k - 1) = p
  constructor <;> omega

/-- C9 witness: the amended formula at the network wrapper's default
parameters (min 1, max 10) and at the model-API wrapper's defaults
(min 2, max 30), for failed attempt number 2. -/
theorem backoff_wait_formula_witness :
    retry_on_network_error_wait 1 10 2 = max 1 (min 10 (2 ^ (2 - 1)))
    ∧ retry_on_anthropic_error_wait 2 30 2 =
        max 2 (min 30 (2 * 2 ^ (2 - 1))) := by
  exact ⟨(backoff_wait_formula 1 10 2 (by decide)).1,
    (backoff_wait_formula 2 30 2 (by decide)).2⟩

/-- C7: the system prompt is the base instruction, then the
interface-specific clause, then the language-specific clause, in that
order, each part separated by a blank line; an unknown interface or
language contributes no clause; for `voice`/`pl` the prompt is the base
prompt, the voice clause, then the Polish clause. -/
theorem system_prompt_composition :
    ∀ (i l : String),
      (pyDictGet i interface_prompts = none →
        pyDictGet l language_prompts = none →
        _build_system_prompt i l = base_prompt)
      ∧ (∀ ic, pyDictGet i interface_prompts = some ic →
          pyDictGet l language_prompts = none →
          _build_system_prompt i l = base_prompt ++ "\n\n" ++ ic)
      ∧ (∀ lc, pyDictGet i interface_prompts = none →
          pyDictGet l language_prompts = some lc →
          _build_system_prompt i l = base_prompt ++ "\n\n" ++ lc)
      ∧ (∀ ic lc, pyDictGet i interface_prompts = some ic →
          pyDictGet l language_prompts = some lc →
          _build_system_prompt i l =
            base_prompt ++ "\n\n" ++ ic ++ "\n\n" ++ lc)
      ∧ _build_system_prompt "voice" "pl" =
          base_prompt ++ "\n\n" ++
            "The user is interacting via voice. Keep responses concise and conversational." ++
            "\n\n" ++ "Respond in Polish." := by
  intro i l
  refine ⟨?_, ?_, ?_, ?_, rfl⟩
  · intro h1 h2
    unfold _build_system_prompt
    rw [h1, h2]
    rfl
  · intro ic h1 h2
    unfold _build_system_prompt
    rw [h1, h2]
    exact inter_two _ _ _
  · intro lc h1 h2
    unfold _build_system_prompt
    rw [h1, h2]
    exact inter_two _ _ _
  · intro ic lc h1 h2
    unfold _build_system_prompt
    rw [h1, h2]
    exact inter_three _ _ _ _

/-- C7 witness: the both-clauses case and the unknown-keys case at
concrete interfaces and languages. -/
theorem system_prompt_composition_witness :
    _build_system_prompt "voice" "pl" =
      base_prompt ++ "\n\n" ++
        "The user is interacting via voice. Keep responses concise and conversational." ++
        "\n\n" ++ "Respond in Polish."
    ∧ _build_system_prompt "hologram" "tlh" = base_prompt := by
  have t := system_prompt_composition "voice" "pl"
  have t2 := system_prompt_composition "hologram" "tlh"
  exact ⟨(t.2.2.2.1
      "The user is interacting via voice. Keep responses concise and conversational."
      "Respond in Polish." rfl rfl), t2.1 rfl rfl⟩

/-- C8: history mapping sends `user` to a user message, `assistant` to an
assistant message, `system` to a system message kept inline at its
position, skips every other role, preserves the order of the survivors,
and the initial sequence for a history of N entries has length
`1 + N + 1` minus the number of unrecognized-role entries. -/
theorem history_mapping_faithful :
    ∀ (history : List HistEntry) (message interface language : String),
      _convert_history_to_messages history = history.filterMap convert_one
      ∧ (∀ c, convert_one ⟨some "user", c⟩ = some (.human c))
      ∧ (∀ c, convert_one ⟨some "assistant", c⟩ = some (.ai c []))
      ∧ (∀ c, convert_one ⟨some "system", c⟩ = some (.system c))
      ∧ (∀ r c, r ≠ some "user" → r ≠ some "assistant" →
          r ≠ some "system" → convert_one ⟨r, c⟩ = none)
      ∧ (initial_messages message history interface language).length =
          1 + history.length + 1 -
            (history.filter (fun e => (convert_one e).isNone)).length := by
  intro history message interface language
  refine ⟨convert_eq_filterMap history, fun c => rfl, fun c => rfl,
    fun c => rfl, ?_, ?_⟩
  · intro r c h1 h2 h3
    cases r with
    | none => rfl
    | some s =>
      have hu : s ≠ "user" := fun h => h1 (by rw [h])
      have ha : s ≠ "assistant" := fun h => h2 (by rw [h])
      have hs : s ≠ "system" := fun h => h3 (by rw [h])
      simp [convert_one, hu, ha, hs]
  · have h := length_filterMap_add_none convert_one history
    have h2 : (initial_messages message history interface language).length =
        (history.filterMap convert_one).length + 2 := by
      simp [initial_messages, convert_eq_filterMap]
    omega

/-- C8 witness: a history with one recognized and one unrecognized entry:
the `tool` role is skipped and the initial sequence has length
`1 + 2 + 1 - 1`. -/
theorem history_mapping_faithful_witness :
    convert_one ⟨some "tool", "x"⟩ = none
    ∧ (initial_messages "hi"
        [⟨some "user", "a"⟩, ⟨some "tool", "x"⟩] "api" "en").length =
      1 + 2 + 1 -
        (List.filter (fun e => (convert_one e).isNone)
          [⟨some "user", "a"⟩, ⟨some "tool", "x"⟩]).length := by
  have t := history_mapping_faithful
    [⟨some "user", "a"⟩, ⟨some "tool", "x"⟩] "hi" "api" "en"
  exact ⟨t.2.2.2.2.1 (some "tool") "x" (by decide) (by decide) (by decide),
    t.2.2.2.2.2⟩

/-- C3: the EXECUTE_TOOLS batch yields exactly one tool-result message
per requested call, in order, and a failing call never aborts the rest of
the batch: a call whose tool has no owner in the registry snapshot yields
the `not found` error message tagged with its call id, a call whose
invocation raises yields the exception-text error message tagged with its
call id, and a successful call yields its result tagged with its call
id.  The step itself is total: the only raising operation, `call_tool`,
sits under the `try`/`except` that produces the error message. -/
theorem execute_tools_per_call_results :
    ∀ (tools : List TaggedTool)
      (te : String → String → String → Except PyExn String)
      (tcs pre post : List ToolCall) (tc : ToolCall),
      (_execute_tools tools te tcs).length = tcs.length
      ∧ _execute_tools tools te (pre ++ tc :: post) =
          _execute_tools tools te pre ++
            execOneTool tools te tc :: _execute_tools tools te post
      ∧ (List.find? (fun t => t.name == tc.name) tools = none →
          execOneTool tools te tc =
            .tool ("Error: Tool " ++ tc.name ++ " not found") tc.id)
      ∧ (∀ t e, List.find? (fun t2 => t2.name == tc.name) tools = some t →
          te t.server tc.name tc.args = .error e →
          execOneTool tools te tc = .tool ("Error: " ++ pyStr e) tc.id)
      ∧ (∀ t r, List.find? (fun t2 => t2.name == tc.name) tools = some t →
          te t.server tc.name tc.args = .ok r →
          execOneTool tools te tc = .tool r tc.id) := by
  intro tools te tcs pre post tc
  refine ⟨List.length_map _ _, ?_, ?_, ?_, ?_⟩
  · simp [_execute_tools]
  · intro h
    simp [execOneTool, h]
  · intro t e h1 h2
    simp [execOneTool, h1, h2]
  · intro t r h1 h2
    simp [execOneTool, h1, h2]

/-- The registry snapshot of the C3 witness: one tool owned by `fs`. -/
def w3_tools : List TaggedTool := [⟨"read_file", "", "fs"⟩]

/-- The tool executor of the C3 witness: every invocation raises. -/
def w3_te : String → String → String → Except PyExn String :=
  fun _ _ _ => .error (.other "boom")

/-- C3 witness: a two-call batch against a registry that knows only
`read_file`, under an executor that always raises: the unknown tool gives
the `not found` message, the raising call gives the exception message,
and the batch still has one result per call. -/
theorem execute_tools_per_call_results_witness :
    execOneTool w3_tools w3_te ⟨"missing", "a", "id1"⟩ =
      .tool "Error: Tool missing not found" "id1"
    ∧ execOneTool w3_tools w3_te ⟨"read_file", "a", "id2"⟩ =
        .tool "Error: boom" "id2"
    ∧ (_execute_tools w3_tools w3_te
        [⟨"missing", "a", "id1"⟩, ⟨"read_file", "a", "id2"⟩]).length = 2 := by
  have t1 := execute_tools_per_call_results w3_tools w3_te [] [] []
    ⟨"missing", "a", "id1"⟩
  have t2 := execute_tools_per_call_results w3_tools w3_te
    [⟨"missing", "a", "id1"⟩, ⟨"read_file", "a", "id2"⟩] [] []
    ⟨"read_file", "a", "id2"⟩
  exact ⟨t1.2.2.1 (by decide),
    t2.2.2.2.1 ⟨"read_file", "", "fs"⟩ (.other "boom") (by decide) rfl,
    t2.1⟩

/-- C1: `chat` always returns a string and never raises: the embedding
has no raise channel at the `chat` level, and whenever the loop run
terminates the string returned is never empty — an exception raised
anywhere inside the run becomes the fixed apology string, and a run that
ends with an empty or absent final text content yields the fixed
`could not generate a response` string. -/
theorem chat_fixed_fallbacks :
    ∀ (tools : List TaggedTool)
      (te : String → String → String → Except PyExn String)
      (script : List ModelOutcome) (message : String)
      (history : List HistEntry) (uid sid interface language : String),
      (∀ e k, runLoop tools te script
          (initial_messages message history interface language) 0 =
            .raised e k →
        chat tools te script message history uid sid interface language =
          some apology_error)
      ∧ (∀ final k, runLoop tools te script
          (initial_messages message history interface language) 0 =
            .done final k →
        chat tools te script message history uid sid interface language =
          some (extract_final final))
      ∧ (∀ final k lm, runLoop tools te script
          (initial_messages message history interface language) 0 =
            .done final k →
          lastMsg final = some lm → msgContent lm = "" →
        chat tools te script message history uid sid interface language =
          some apology_empty)
      ∧ (∀ final k, runLoop tools te script
          (initial_messages message history interface language) 0 =
            .done final k →
          lastMsg final = none →
        chat tools te script message history uid sid interface language =
          some apology_empty)
      ∧ (∀ r, chat tools te script message history uid sid
            interface language = some r → r ≠ "") := by
  intro tools te script message history uid sid interface language
  refine ⟨?_, ?_, ?_, ?_, ?_⟩
  · intro e k h
    simp [chat, h]
  · intro final k h
    simp [chat, h]
  · intro final k lm h hl hc
    simp [chat, h, extract_final, hl, hc]
  · intro final k h hl
    simp [chat, h, extract_final, hl]
  · intro r h
    unfold chat at h
    cases hr : runLoop tools te script
        (initial_messages message history interface language) 0 with
    | done final calls =>
      rw [hr] at h
      simp only [Option.some.injEq] at h
      rw [← h]
      exact extract_final_ne_empty final
    | raised e calls =>
      rw [hr] at h
      simp only [Option.some.injEq] at h
      rw [← h]
      decide
    | pending calls =>
      rw [hr] at h
      simp at h

/-- The tool executor used by the chat witnesses: every invocation
succeeds with an empty result. -/
def te0 : String → String → String → Except PyExn String :=
  fun _ _ _ => .ok ""

/-- C1 witness: a first model call that raises yields the apology string;
a first model call that answers with empty text and no tool calls yields
the fixed `could not generate a response` string. -/
theorem chat_fixed_fallbacks_witness :
    chat [] te0 [.raise (.other "boom")] "hi" [] "u" "s" "api" "en" =
      some apology_error
    ∧ chat [] te0 [.resp "" []] "hi" [] "u" "s" "api" "en" =
        some apology_empty := by
  have t := chat_fixed_fallbacks [] te0 [.raise (.other "boom")] "hi" []
    "u" "s" "api" "en"
  have t2 := chat_fixed_fallbacks [] te0 [.resp "" []] "hi" []
    "u" "s" "api" "en"
  have hrl : runLoop [] te0 [ModelOutcome.resp "" []]
      (initial_messages "hi" [] "api" "en") 0 =
      .done (initial_messages "hi" [] "api" "en" ++
        [BaseMessage.ai "" []]) 1 := rfl
  refine ⟨t.1 (.other "boom") 1 rfl, ?_⟩
  exact t2.2.2.1 (initial_messages "hi" [] "api" "en" ++
    [BaseMessage.ai "" []]) 1 (BaseMessage.ai "" []) hrl
    (lastMsg_concat _ _) rfl

/-- C2 counterexample: a first response with zero tool calls whose text
is empty: `chat` returns the fixed fallback string, not that response's
text (the empty string) unchanged. -/
theorem chat_first_response_text_cex :
    chat [] te0 [.resp "" []] "msg" [] "u" "s" "api" "en" ≠ some "" := by
  decide

/-- C2 (amended): if the model's first response contains zero tool-call
requests, `chat` performs exactly one model invocation, and returns that
response's text unchanged provided the text is non-empty; when the text
is empty it returns the fixed `could not generate a response` string
instead. -/
theorem chat_single_model_call :
    ∀ (tools : List TaggedTool)
      (te : String → String → String → Except PyExn String)
      (c : String) (rest : List ModelOutcome) (message : String)
      (history : List HistEntry) (uid sid interface language : String),
      runLoop tools te (.resp c [] :: rest)
          (initial_messages message history interface language) 0 =
        .done (initial_messages message history interface language ++
          [.ai c []]) 1
      ∧ (c ≠ "" →
          chat tools te (.resp c [] :: rest) message history uid sid
            interface language = some c)
      ∧ (c = "" →
          chat tools te (.resp c [] :: rest) message history uid sid
            interface language = some apology_empty) := by
  intro tools te c rest message history uid sid interface language
  have h1 : runLoop tools te (.resp c [] :: rest)
      (initial_messages message history interface language) 0 =
      .done (initial_messages message history interface language ++
        [.ai c []]) 1 := by
    simp [runLoop, should_continue_concat]
  refine ⟨h1, ?_, ?_⟩
  · intro hc
    simp [chat, h1, extract_final, lastMsg_concat, msgContent, hc]
  · intro hc
    subst hc
    simp [chat, h1, extract_final, lastMsg_concat, msgContent]

/-- C2 witness: a non-empty first response with zero tool calls is
returned unchanged after exactly one model invocation. -/
theorem chat_single_model_call_witness :
    runLoop [] te0 [.resp "ok" []]
        (initial_messages "hi" [] "api" "en") 0 =
      .done (initial_messages "hi" [] "api" "en" ++ [.ai "ok" []]) 1
    ∧ chat [] te0 [.resp "ok" []] "hi" [] "u" "s" "api" "en" = some "ok" := by
  have t := chat_single_model_call [] te0 "ok" [] "hi" [] "u" "s" "api" "en"
  exact ⟨t.1, t.2.1 (by decide)⟩
